import Mathlib

/-!
Shallow embedding of `tensilelite/Tensile/Toolchain/Validators.py`.

The Python module resolves and validates toolchain components (C compiler,
C++ compiler, offload bundler, device-info tool), discovers the latest
version-numbered ROCm directory on Windows, and extracts a version string
from a tool's `--version` output.

Modelling conventions:
  * the operating-system family (`os.name`) is an explicit `OSName` argument;
  * the filesystem executable-bit oracle (`os.access(p, os.X_OK)`) is an
    explicit function `fs : String → Bool`;
  * Python exceptions become the inductive `PyError` carried in `Except`;
  * path strings are modelled as plain strings with a POSIX-style join;
  * `validateExecutable` additionally returns the ordered list of paths it
    probed, so that "no filesystem access" is expressible as an empty trace.
-/

/-- Python exception values raised by the module, by exception class. -/
inductive PyError where
  | valueError (msg : String)
  | fileNotFoundError (msg : String)
  | runtimeError (msg : String)
  deriving DecidableEq, Repr

/-- Discriminator for the `FileNotFoundError` class. -/
def PyError.isFileNotFound : PyError → Bool
  | .fileNotFoundError _ => true
  | _ => false

/-- Operating-system family, the value of Python's `os.name`. -/
inductive OSName where
  | posix
  | nt
  deriving DecidableEq, Repr

/-- String form of `os.name` as interpolated into error messages. -/
def osNameStr : OSName → String
  | .posix => "posix"
  | .nt => "nt"

/-- The module's `osSelect = lambda linux, windows: linux if os.name != "nt" else windows`. -/
def osSelect (os : OSName) (linux windows : String) : String :=
  match os with
  | .nt => windows
  | .posix => linux

/-- Python's `os.pathsep`, used to split the `PATH` environment variable. -/
def pathSepChar : OSName → Char
  | .posix => ':'
  | .nt => ';'

/-- Split a character list at every occurrence of `sep` (Python `str.split(sep)`). -/
def splitOnChar (sep : Char) : List Char → List (List Char)
  | [] => [[]]
  | c :: cs =>
    let r := splitOnChar sep cs
    if c = sep then [] :: r
    else
      match r with
      | [] => [[c]]
      | h :: t => (c :: h) :: t

/-- Split a string at every occurrence of the character `sep`. -/
def splitStr (s : String) (sep : Char) : List String :=
  (splitOnChar sep s.toList).map (fun cs => String.mk cs)

/-- Python `sep.join(xs)`. -/
def joinWith (sep : String) : List String → String
  | [] => ""
  | [x] => x
  | x :: y :: xs => x ++ sep ++ joinWith sep (y :: xs)

/-- Join a directory and a file name as `pathlib` division does: an absolute
right-hand side replaces the directory, otherwise the segments are joined
with a single slash. -/
def pathJoin (d f : String) : String :=
  if "/".toList.isPrefixOf f.toList then f
  else if "/".toList.isSuffixOf d.toList then d ++ f
  else d ++ "/" ++ f

/-- The final path segment of a name, as `pathlib.Path(s).name` computes it:
the last slash-separated component after dropping empty and `.` segments. -/
def baseName (s : String) : String :=
  let parts := (splitStr s '/').filter (fun p => !(p == "") && !(p == "."))
  parts.getLast?.getD ""

namespace ToolchainDefaults

/-- Canonical C++/HIP compiler name, per OS family. -/
def CXX_COMPILER (os : OSName) : String := osSelect os "amdclang++" "clang++.exe"

/-- Canonical C compiler name, per OS family. -/
def C_COMPILER (os : OSName) : String := osSelect os "amdclang" "clang.exe"

/-- Canonical offload-bundler name, per OS family. -/
def OFFLOAD_BUNDLER (os : OSName) : String :=
  osSelect os "clang-offload-bundler" "clang-offload-bundler.exe"

/-- Canonical assembler name, per OS family. -/
def ASSEMBLER (os : OSName) : String := osSelect os "amdclang++" "clang++.exe"

/-- Canonical device-info (hipconfig) tool name, per OS family. -/
def HIP_CONFIG (os : OSName) : String := osSelect os "hipconfig" "hipconfig"

end ToolchainDefaults

/-- The module constant `ROCM_BIN_PATH` on POSIX. -/
def ROCM_BIN_PATH : String := "/opt/rocm/bin"

/-- The module constant `ROCM_LLVM_BIN_PATH` on POSIX. -/
def ROCM_LLVM_BIN_PATH : String := "/opt/rocm/lib/llvm/bin"

/-- `_supportedComponent`: a component matches when it equals a target
exactly or its base filename does. -/
def supportedComponent (component : String) (targets : List String) : Bool :=
  targets.any (fun t => component == t) || targets.any (fun t => baseName component == t)

/-- `supportedCCompiler`. -/
def supportedCCompiler (os : OSName) (compiler : String) : Bool :=
  supportedComponent compiler [ToolchainDefaults.C_COMPILER os]

/-- `supportedCxxCompiler`. -/
def supportedCxxCompiler (os : OSName) (compiler : String) : Bool :=
  supportedComponent compiler [ToolchainDefaults.CXX_COMPILER os]

/-- `supportedOffloadBundler`. -/
def supportedOffloadBundler (os : OSName) (bundler : String) : Bool :=
  supportedComponent bundler [ToolchainDefaults.OFFLOAD_BUNDLER os]

/-- `supportedHip`. -/
def supportedHip (os : OSName) (smi : String) : Bool :=
  supportedComponent smi [ToolchainDefaults.HIP_CONFIG os]

/-- The disjunction tested first inside `_validateExecutable`. -/
def supportedToolchainComponent (os : OSName) (file : String) : Bool :=
  supportedCxxCompiler os file || supportedCCompiler os file ||
    supportedOffloadBundler os file || supportedHip os file

/-- `_exeExists`: `True if os.access(file, os.X_OK) else False`, with the
access oracle `fs` passed explicitly. -/
def exeExists (fs : String → Bool) (file : String) : Bool :=
  if fs file then true else false

/-- The search loop of `_validateExecutable`: probe `directory/file` in each
directory in order, stopping at the first executable hit.  Returns the hit
(if any) together with the ordered list of probed candidate paths. -/
def searchLoop (fs : String → Bool) (file : String) :
    List String → Option String × List String
  | [] => (none, [])
  | d :: ds =>
    let cand := pathJoin d file
    if exeExists fs cand then (some cand, [cand])
    else
      let r := searchLoop fs file ds
      (r.1, cand :: r.2)

/-- `_validateExecutable`, instrumented with the ordered list of filesystem
probes it performs.  The unsupported-component check precedes every probe. -/
def validateExecutable (os : OSName) (fs : String → Bool) (file : String)
    (searchPaths : List String) : Except PyError String × List String :=
  if !(supportedToolchainComponent os file) then
    (.error (.valueError (file ++ " is not a supported toolchain component for OS: " ++
      osNameStr os)), [])
  else if exeExists fs file then (.ok file, [file])
  else
    match searchLoop fs file searchPaths with
    | (some p, ps) => (.ok p, file :: ps)
    | (none, ps) =>
      (.error (.fileNotFoundError ("`" ++ file ++
        "` either not found or not executable in any search path: " ++
        joinWith ":" searchPaths)), file :: ps)

/-- Sequential validation of all arguments; the first raised error aborts,
as with Python's lazily consumed generator. -/
def validateAll (os : OSName) (fs : String → Bool) (searchPaths : List String) :
    List String → Except PyError (List String)
  | [] => .ok []
  | x :: xs =>
    match (validateExecutable os fs x searchPaths).1 with
    | .error e => .error e
    | .ok r =>
      match validateAll os fs searchPaths xs with
      | .error e => .error e
      | .ok rs => .ok (r :: rs)

/-- `validateToolchain`: empty-argument check, then search-path construction
(vendor primary dir, vendor llvm dir, then the split `PATH`), then
per-component validation. -/
def validateToolchain (os : OSName) (fs : String → Bool)
    (rocmBinPath rocmLlvmBinPath : String) (envPATH : String)
    (args : List String) : Except PyError (List String) :=
  if args.isEmpty then
    .error (.valueError "No toolchain components to validate, at least one argument is required")
  else
    validateAll os fs ([rocmBinPath, rocmLlvmBinPath] ++ splitStr envPATH (pathSepChar os)) args

/-- One entry of a directory listing, as seen by `path.iterdir()`:
its final-component name and whether it is a directory. -/
structure DirEntry where
  name : String
  isDir : Bool
  deriving DecidableEq, Repr

/-- Decides the regular expression `^\d+\.\d+$`. -/
def versionPattern (s : String) : Bool :=
  match splitStr s '.' with
  | [a, b] =>
    !(a == "") && !(b == "") && a.toList.all Char.isDigit && b.toList.all Char.isDigit
  | _ => false

/-- Numeric value of a digit string (how `int` reads a matched group). -/
def parseNat (cs : List Char) : Nat :=
  cs.foldl (fun acc c => acc * 10 + (c.toNat - 48)) 0

/-- `tuple(map(int, name.split(".")))` for a `MAJOR.MINOR` name. -/
def parseVer (s : String) : Nat × Nat :=
  match splitStr s '.' with
  | [a, b] => (parseNat a.toList, parseNat b.toList)
  | _ => (0, 0)

/-- Strict lexicographic order on `(major, minor)` pairs, the order Python's
`max` uses on the key tuples. -/
def verLt (a b : Nat × Nat) : Prop :=
  a.1 < b.1 ∨ (a.1 = b.1 ∧ a.2 < b.2)

instance (a b : Nat × Nat) : Decidable (verLt a b) := by
  unfold verLt; exact inferInstance

/-- The fold Python's `max(xs, key=key)` performs once started from `x`:
later elements replace the current best only when strictly greater. -/
def pyFoldMax (key : String → Nat × Nat) (x : String) (xs : List String) : String :=
  xs.foldl (fun best y => if verLt (key best) (key y) then y else best) x

/-- Python `max(xs, key=key)`: `none` models the `ValueError` on an empty
sequence. -/
def pyMax (key : String → Nat × Nat) : List String → Option String
  | [] => none
  | x :: xs => some (pyFoldMax key x xs)

/-- The subdirectory names of the ROCm root that survive the
`d.is_dir() and pattern.match(d.name)` filter. -/
def rocmVersionDirs (entries : List DirEntry) : List String :=
  (entries.filter (fun d => d.isDir && versionPattern d.name)).map DirEntry.name

/-- `_windowsLatestRocmBin`, with the listing of the root directory passed
explicitly.  `max` on an empty sequence raises `ValueError`. -/
def windowsLatestRocmBin (root : String) (entries : List DirEntry) : Except PyError String :=
  match pyMax parseVer (rocmVersionDirs entries) with
  | none => .error (.valueError "max() arg is an empty sequence")
  | some latest => .ok (pathJoin (pathJoin root latest) "bin")

/-- Python's `\s` character class (ASCII). -/
def isSpaceChar (c : Char) : Bool :=
  c = ' ' || c = '\t' || c = '\n' || c = '\r' || c = '\x0b' || c = '\x0c'

/-- The character class `[\d.]` of the default version pattern. -/
def isVerChar (c : Char) : Bool :=
  c.isDigit || c = '.'

/-- Python `str.strip()`: drop ASCII whitespace at both ends. -/
def pyStrip (s : String) : String :=
  String.mk (((s.toList.dropWhile isSpaceChar).reverse.dropWhile isSpaceChar).reverse)

/-- Case-insensitive literal match: consume `pat` from the front of `cs`,
comparing lowercased input characters against the (lowercase) pattern. -/
def dropCI (pat : List Char) (cs : List Char) : Option (List Char) :=
  match pat, cs with
  | [], rest => some rest
  | _ :: _, [] => none
  | p :: ps, c :: rest => if c.toLower = p then dropCI ps rest else none

/-- Attempt the default pattern `version\s+([\d.]+)` (IGNORECASE) at the head
of `cs`; on success return the capture group. -/
def matchDefaultAt (cs : List Char) : Option (List Char) :=
  match dropCI "version".toList cs with
  | none => none
  | some rest =>
    if (rest.dropWhile isSpaceChar).length = rest.length then none
    else if (List.takeWhile isVerChar (rest.dropWhile isSpaceChar)).isEmpty then none
    else some (List.takeWhile isVerChar (rest.dropWhile isSpaceChar))

/-- `re.search` with the default pattern: try every start position left to
right and return the first capture group of the first match. -/
def searchDefault : List Char → Option (List Char)
  | [] => none
  | c :: cs =>
    match matchDefaultAt (c :: cs) with
    | some g => some g
    | none => searchDefault cs

/-- `match.group(1) if match else "<unknown>"`, for an arbitrary search
function standing for the compiled pattern. -/
def extractVersion (search : List Char → Option (List Char)) (output : String) : String :=
  match search output.toList with
  | some g => String.mk g
  | none => "<unknown>"

/-- `getVersion`: the subprocess boundary is an oracle `subproc` that either
yields the decoded raw standard output or the text of a raised low-level
exception; any failure is wrapped into a `RuntimeError` naming the attempted
command line. -/
def getVersion (subproc : Except String String) (executable : String)
    (versionFlag : String) (search : List Char → Option (List Char)) :
    Except PyError String :=
  match subproc with
  | .error e =>
    .error (.runtimeError ("Failed to get version when calling \"" ++ executable ++
      "\" \"" ++ versionFlag ++ "\": " ++ e))
  | .ok raw => .ok (extractVersion search (pyStrip raw))

/-! ### Helper lemmas shared by the claim theorems -/

theorem supportedComponent_singleton (c t : String) :
    supportedComponent c [t] = (c == t || baseName c == t) := by
  simp [supportedComponent]

theorem validateExecutable_unsupported (os : OSName) (fs : String → Bool)
    (file : String) (searchPaths : List String)
    (h : supportedToolchainComponent os file = false) :
    validateExecutable os fs file searchPaths =
      (.error (.valueError (file ++ " is not a supported toolchain component for OS: " ++
        osNameStr os)), []) := by
  simp [validateExecutable, h]

theorem validateExecutable_direct (os : OSName) (fs : String → Bool)
    (file : String) (searchPaths : List String)
    (h : supportedToolchainComponent os file = true) (hfs : fs file = true) :
    validateExecutable os fs file searchPaths = (.ok file, [file]) := by
  simp [validateExecutable, h, exeExists, hfs]

theorem searchLoop_first (fs : String → Bool) (file : String) :
    ∀ (pre : List String) (d : String) (post : List String),
      (∀ p ∈ pre, fs (pathJoin p file) = false) →
      fs (pathJoin d file) = true →
      searchLoop fs file (pre ++ d :: post) =
        (some (pathJoin d file), (pre ++ [d]).map (fun p => pathJoin p file)) := by
  intro pre
  induction pre with
  | nil =>
    intro d post _ hd
    simp [searchLoop, exeExists, hd]
  | cons p ps ih =>
    intro d post hpre hd
    have hp : fs (pathJoin p file) = false := hpre p (List.mem_cons_self p ps)
    have hrest := ih d post (fun q hq => hpre q (List.mem_cons_of_mem p hq)) hd
    simp [searchLoop, exeExists, hp, hrest]

theorem searchLoop_none (fs : String → Bool) (file : String) :
    ∀ (dirs : List String),
      (∀ p ∈ dirs, fs (pathJoin p file) = false) →
      searchLoop fs file dirs = (none, dirs.map (fun p => pathJoin p file)) := by
  intro dirs
  induction dirs with
  | nil => intro _; simp [searchLoop]
  | cons p ps ih =>
    intro hall
    have hp : fs (pathJoin p file) = false := hall p (List.mem_cons_self p ps)
    have hrest := ih (fun q hq => hall q (List.mem_cons_of_mem p hq))
    simp [searchLoop, exeExists, hp, hrest]

theorem validateToolchain_one_ok (os : OSName) (fs : String → Bool)
    (v1 v2 envPATH name r : String)
    (h : (validateExecutable os fs name ([v1, v2] ++ splitStr envPATH (pathSepChar os))).1 =
      .ok r) :
    validateToolchain os fs v1 v2 envPATH [name] = .ok [r] := by
  have h2 : (validateExecutable os fs name
      (v1 :: v2 :: splitStr envPATH (pathSepChar os))).1 = .ok r := h
  simp [validateToolchain, validateAll, h2]

theorem validateToolchain_one_err (os : OSName) (fs : String → Bool)
    (v1 v2 envPATH name : String) (e : PyError)
    (h : (validateExecutable os fs name ([v1, v2] ++ splitStr envPATH (pathSepChar os))).1 =
      .error e) :
    validateToolchain os fs v1 v2 envPATH [name] = .error e := by
  have h2 : (validateExecutable os fs name
      (v1 :: v2 :: splitStr envPATH (pathSepChar os))).1 = .error e := h
  simp [validateToolchain, validateAll, h2]

theorem verLt_irrefl (a : Nat × Nat) : ¬ verLt a a := by
  unfold verLt; omega

theorem verLt_trans {a b c : Nat × Nat} (h1 : verLt a b) (h2 : verLt b c) : verLt a c := by
  unfold verLt at *; omega

theorem not_verLt_trans {a b c : Nat × Nat} (h1 : ¬ verLt a b) (h2 : ¬ verLt b c) :
    ¬ verLt a c := by
  unfold verLt at *; omega

theorem pyFoldMax_spec (key : String → Nat × Nat) :
    ∀ (xs : List String) (x : String),
      pyFoldMax key x xs ∈ x :: xs ∧
        ∀ y ∈ x :: xs, ¬ verLt (key (pyFoldMax key x xs)) (key y) := by
  intro xs
  induction xs with
  | nil =>
    intro x
    refine ⟨by simp [pyFoldMax], ?_⟩
    intro y hy
    have hyx : y = x := by simpa using hy
    subst hyx
    simpa [pyFoldMax] using verLt_irrefl (key y)
  | cons z zs ih =>
    intro x
    have hfold : pyFoldMax key x (z :: zs) =
        pyFoldMax key (if verLt (key x) (key z) then z else x) zs := rfl
    by_cases hxz : verLt (key x) (key z)
    · rw [hfold, if_pos hxz]
      obtain ⟨hmem, hbound⟩ := ih z
      refine ⟨List.mem_cons_of_mem x hmem, ?_⟩
      intro y hy
      rcases List.mem_cons.mp hy with hyx | hy2
      · subst hyx
        intro hc
        exact hbound z (List.mem_cons_self z zs) (verLt_trans hc hxz)
      · exact hbound y hy2
    · rw [hfold, if_neg hxz]
      obtain ⟨hmem, hbound⟩ := ih x
      have hmem2 : pyFoldMax key x zs ∈ x :: z :: zs := by
        rcases List.mem_cons.mp hmem with h1 | h1
        · rw [h1]; exact List.mem_cons_self x (z :: zs)
        · exact List.mem_cons_of_mem x (List.mem_cons_of_mem z h1)
      refine ⟨hmem2, ?_⟩
      intro y hy
      rcases List.mem_cons.mp hy with hyx | hy2
      · subst hyx
        exact hbound y (List.mem_cons_self y zs)
      · rcases List.mem_cons.mp hy2 with hyz | hy3
        · subst hyz
          exact not_verLt_trans (hbound x (List.mem_cons_self x zs)) hxz
        · exact hbound y (List.mem_cons_of_mem x hy3)

theorem matchDefaultAt_sound (cs g : List Char) (h : matchDefaultAt cs = some g) :
    g ≠ [] ∧ g.all isVerChar = true := by
  unfold matchDefaultAt at h
  cases hd : dropCI "version".toList cs with
  | none => rw [hd] at h; simp at h
  | some rest =>
    rw [hd] at h
    dsimp only at h
    by_cases hsp : (rest.dropWhile isSpaceChar).length = rest.length
    · rw [if_pos hsp] at h; simp at h
    · rw [if_neg hsp] at h
      by_cases hg : (List.takeWhile isVerChar (rest.dropWhile isSpaceChar)).isEmpty
      · rw [if_pos hg] at h; simp at h
      · rw [if_neg hg] at h
        have hge : List.takeWhile isVerChar (rest.dropWhile isSpaceChar) = g := by
          simpa using h
        subst hge
        refine ⟨?_, ?_⟩
        · intro hnil
          exact hg (by simp [hnil])
        · rw [List.all_eq_true]
          intro a ha
          exact List.mem_takeWhile_imp ha

theorem searchDefault_sound :
    ∀ (cs g : List Char), searchDefault cs = some g → g ≠ [] ∧ g.all isVerChar = true := by
  intro cs
  induction cs with
  | nil => intro g h; simp [searchDefault] at h
  | cons c cs ih =>
    intro g h
    unfold searchDefault at h
    cases hm : matchDefaultAt (c :: cs) with
    | some g2 =>
      rw [hm] at h
      dsimp only at h
      have hg : g2 = g := by simpa using h
      subst hg
      exact matchDefaultAt_sound _ _ hm
    | none =>
      rw [hm] at h
      dsimp only at h
      exact ih g h

/-! ### Claim theorems -/

/-- C1: for every supported component name and every filesystem state, a name
that is itself executable is returned unchanged; otherwise resolution probes,
in order, the vendor primary bin directory, the vendor llvm bin directory and
then each directory of `PATH` in its original order, returning
`directory/name` for the first directory whose candidate is executable, with
the probe trace matching that order exactly (first-match-wins). -/
theorem c1_resolution_order (os : OSName) (fs : String → Bool)
    (name v1 v2 envPATH : String)
    (hsup : supportedToolchainComponent os name = true) :
    (fs name = true →
      validateToolchain os fs v1 v2 envPATH [name] = .ok [name]) ∧
    (∀ (pre : List String) (d : String) (post : List String),
      [v1, v2] ++ splitStr envPATH (pathSepChar os) = pre ++ d :: post →
      (∀ p ∈ pre, fs (pathJoin p name) = false) →
      fs (pathJoin d name) = true →
      fs name = false →
      validateToolchain os fs v1 v2 envPATH [name] = .ok [pathJoin d name] ∧
        (validateExecutable os fs name (pre ++ d :: post)).2 =
          name :: (pre ++ [d]).map (fun p => pathJoin p name)) := by
  constructor
  · intro hfs
    have hv := validateExecutable_direct os fs name
      ([v1, v2] ++ splitStr envPATH (pathSepChar os)) hsup hfs
    exact validateToolchain_one_ok os fs v1 v2 envPATH name name (by rw [hv])
  · intro pre d post heq hpre hd hself
    have hloop := searchLoop_first fs name pre d post hpre hd
    have hval : validateExecutable os fs name (pre ++ d :: post) =
        (.ok (pathJoin d name), name :: (pre ++ [d]).map (fun p => pathJoin p name)) := by
      simp [validateExecutable, hsup, exeExists, hself, hloop]
    refine ⟨?_, by rw [hval]⟩
    apply validateToolchain_one_ok os fs v1 v2 envPATH name (pathJoin d name)
    rw [heq, hval]

/-- Witness for C1: `amdclang++` is absent from the vendor primary dir but
executable in the vendor llvm dir, so resolution returns the llvm-dir path. -/
theorem c1_resolution_order_witness :
    validateToolchain OSName.posix (fun s => s == "/opt/rocm/lib/llvm/bin/amdclang++")
      ROCM_BIN_PATH ROCM_LLVM_BIN_PATH "/usr/bin" ["amdclang++"] =
      .ok ["/opt/rocm/lib/llvm/bin/amdclang++"] := by
  have h := (c1_resolution_order OSName.posix
      (fun s => s == "/opt/rocm/lib/llvm/bin/amdclang++")
      "amdclang++" ROCM_BIN_PATH ROCM_LLVM_BIN_PATH "/usr/bin" (by decide)).2
      ["/opt/rocm/bin"] "/opt/rocm/lib/llvm/bin" ["/usr/bin"]
      (by decide) (by decide) (by decide) (by decide)
  exact h.1

/-- C2: each role's predicate accepts exactly the names whose full string or
final path segment equals the role's canonical default; version-suffixed
names such as `clang++-17` are rejected and matching is case-sensitive. -/
theorem c2_classifier_iff (os : OSName) (name : String) :
    (supportedCCompiler os name = true ↔
      (name = ToolchainDefaults.C_COMPILER os ∨
        baseName name = ToolchainDefaults.C_COMPILER os)) ∧
    (supportedCxxCompiler os name = true ↔
      (name = ToolchainDefaults.CXX_COMPILER os ∨
        baseName name = ToolchainDefaults.CXX_COMPILER os)) ∧
    (supportedOffloadBundler os name = true ↔
      (name = ToolchainDefaults.OFFLOAD_BUNDLER os ∨
        baseName name = ToolchainDefaults.OFFLOAD_BUNDLER os)) ∧
    (supportedHip os name = true ↔
      (name = ToolchainDefaults.HIP_CONFIG os ∨
        baseName name = ToolchainDefaults.HIP_CONFIG os)) ∧
    supportedCxxCompiler OSName.posix "clang++-17" = false ∧
    supportedCxxCompiler OSName.nt "clang++-17" = false ∧
    supportedCxxCompiler OSName.posix "AMDCLANG++" = false ∧
    supportedCCompiler OSName.nt "Clang.exe" = false := by
  refine ⟨?_, ?_, ?_, ?_, by decide, by decide, by decide, by decide⟩
  · unfold supportedCCompiler
    rw [supportedComponent_singleton]
    simp
  · unfold supportedCxxCompiler
    rw [supportedComponent_singleton]
    simp
  · unfold supportedOffloadBundler
    rw [supportedComponent_singleton]
    simp
  · unfold supportedHip
    rw [supportedComponent_singleton]
    simp

/-- C3: a name supported under no role makes resolution fail with the
unsupported-component `ValueError` carrying the name and the OS family, with
an empty probe trace — the classification check precedes every filesystem
access, for every filesystem oracle. -/
theorem c3_unsupported_precedes_probes (os : OSName) (fs : String → Bool)
    (name : String) (searchPaths : List String) (v1 v2 envPATH : String)
    (h : supportedToolchainComponent os name = false) :
    validateExecutable os fs name searchPaths =
      (.error (.valueError (name ++ " is not a supported toolchain component for OS: " ++
        osNameStr os)), []) ∧
    validateToolchain os fs v1 v2 envPATH [name] =
      .error (.valueError (name ++ " is not a supported toolchain component for OS: " ++
        osNameStr os)) := by
  have h2 := validateExecutable_unsupported os fs name
    ([v1, v2] ++ splitStr envPATH (pathSepChar os)) h
  exact ⟨validateExecutable_unsupported os fs name searchPaths h,
    validateToolchain_one_err os fs v1 v2 envPATH name _ (by rw [h2])⟩

/-- Witness for C3: `gcc` is unsupported even on a filesystem where every
path is executable. -/
theorem c3_unsupported_precedes_probes_witness :
    validateToolchain OSName.posix (fun _ => true)
      ROCM_BIN_PATH ROCM_LLVM_BIN_PATH "/usr/bin" ["gcc"] =
      .error (.valueError "gcc is not a supported toolchain component for OS: posix") := by
  exact (c3_unsupported_precedes_probes OSName.posix (fun _ => true) "gcc" []
    ROCM_BIN_PATH ROCM_LLVM_BIN_PATH "/usr/bin" (by decide)).2

/-- C4 counterexample: on the Windows family the not-found message joins the
searched directories with a colon, not the platform separator `;` — the
semicolon-joined search path does not occur in the message. -/
theorem c4_counterexample :
    validateToolchain OSName.nt (fun _ => false) "D1" "D2" "D3" ["clang.exe"] =
      .error (.fileNotFoundError
        "`clang.exe` either not found or not executable in any search path: D1:D2:D3") ∧
    ("`clang.exe` either not found or not executable in any search path: D1:D2:D3".toList.contains
      (pathSepChar OSName.nt)) = false := by
  exact ⟨rfl, by decide⟩

/-- C4 (amended): when a supported name is neither directly executable nor
found in any search directory, resolution fails with a `FileNotFoundError`
whose message lists every searched directory in order joined by a colon on
both OS families (the separator is hardcoded, not the platform path
separator). -/
theorem c4_notfound_colon_joined (os : OSName) (fs : String → Bool)
    (name v1 v2 envPATH : String)
    (hsup : supportedToolchainComponent os name = true)
    (hself : fs name = false)
    (hall : ∀ p ∈ [v1, v2] ++ splitStr envPATH (pathSepChar os),
      fs (pathJoin p name) = false) :
    validateToolchain os fs v1 v2 envPATH [name] =
      .error (.fileNotFoundError ("`" ++ name ++
        "` either not found or not executable in any search path: " ++
        joinWith ":" ([v1, v2] ++ splitStr envPATH (pathSepChar os)))) := by
  have hloop : searchLoop fs name (v1 :: v2 :: splitStr envPATH (pathSepChar os)) =
      (none, (v1 :: v2 :: splitStr envPATH (pathSepChar os)).map (fun p => pathJoin p name)) :=
    searchLoop_none fs name ([v1, v2] ++ splitStr envPATH (pathSepChar os)) hall
  have hval : validateExecutable os fs name ([v1, v2] ++ splitStr envPATH (pathSepChar os)) =
      (.error (.fileNotFoundError ("`" ++ name ++
        "` either not found or not executable in any search path: " ++
        joinWith ":" ([v1, v2] ++ splitStr envPATH (pathSepChar os)))),
        name :: ([v1, v2] ++ splitStr envPATH (pathSepChar os)).map
          (fun p => pathJoin p name)) := by
    simp [validateExecutable, hsup, exeExists, hself, hloop]
  exact validateToolchain_one_err os fs v1 v2 envPATH name _ (by rw [hval])

/-- Witness for C4 (amended): a supported name absent everywhere produces the
colon-joined search-path message on POSIX. -/
theorem c4_notfound_colon_joined_witness :
    validateToolchain OSName.posix (fun _ => false)
      ROCM_BIN_PATH ROCM_LLVM_BIN_PATH "/usr/bin:/bin" ["hipconfig"] =
      .error (.fileNotFoundError
        "`hipconfig` either not found or not executable in any search path: /opt/rocm/bin:/opt/rocm/lib/llvm/bin:/usr/bin:/bin") := by
  exact c4_notfound_colon_joined OSName.posix (fun _ => false) "hipconfig"
    ROCM_BIN_PATH ROCM_LLVM_BIN_PATH "/usr/bin:/bin" (by decide) rfl
    (by intro p _; rfl)

/-- C5 counterexample: when no immediate subdirectory matches `^\d+\.\d+$`,
Windows vendor-directory discovery propagates the opaque empty-sequence
`ValueError` raised by `max`, not a clear, distinct discovery error. -/
theorem c5_counterexample :
    windowsLatestRocmBin "C:/Program Files/AMD/ROCm"
      [⟨"bin", true⟩, ⟨"5", true⟩, ⟨"5.4.1", true⟩, ⟨"9.5", false⟩] =
      .error (.valueError "max() arg is an empty sequence") := by
  rfl

/-- C5 (amended): discovery selects, among subdirectories matching
`^\d+\.\d+$`, one that is numerically maximal on the `(major, minor)` pair
(so `10.0` outranks `9.5` and `9.8`) and appends the `bin` subsegment; when
no subdirectory matches, it propagates the underlying empty-sequence
`ValueError` from `max` rather than a distinct discovery error. -/
theorem c5_amended_windows_discovery (root : String) (entries : List DirEntry) :
    (rocmVersionDirs entries = [] →
      windowsLatestRocmBin root entries =
        .error (.valueError "max() arg is an empty sequence")) ∧
    (∀ m, pyMax parseVer (rocmVersionDirs entries) = some m →
      windowsLatestRocmBin root entries = .ok (pathJoin (pathJoin root m) "bin") ∧
        m ∈ rocmVersionDirs entries ∧
        ∀ v ∈ rocmVersionDirs entries, ¬ verLt (parseVer m) (parseVer v)) ∧
    windowsLatestRocmBin root [⟨"9.5", true⟩, ⟨"10.0", true⟩, ⟨"9.8", true⟩] =
      .ok (pathJoin (pathJoin root "10.0") "bin") := by
  refine ⟨?_, ?_, ?_⟩
  · intro h
    simp [windowsLatestRocmBin, h, pyMax]
  · intro m hm
    refine ⟨by simp [windowsLatestRocmBin, hm], ?_, ?_⟩
    · cases hdirs : rocmVersionDirs entries with
      | nil => rw [hdirs] at hm; simp [pyMax] at hm
      | cons x xs =>
        rw [hdirs] at hm
        have hm2 : pyFoldMax parseVer x xs = m := by simpa [pyMax] using hm
        exact hm2 ▸ (pyFoldMax_spec parseVer xs x).1
    · cases hdirs : rocmVersionDirs entries with
      | nil => rw [hdirs] at hm; simp [pyMax] at hm
      | cons x xs =>
        rw [hdirs] at hm
        have hm2 : pyFoldMax parseVer x xs = m := by simpa [pyMax] using hm
        exact hm2 ▸ (pyFoldMax_spec parseVer xs x).2
  · have hmax : pyMax parseVer
        (rocmVersionDirs [⟨"9.5", true⟩, ⟨"10.0", true⟩, ⟨"9.8", true⟩]) = some "10.0" := by
      decide
    simp [windowsLatestRocmBin, hmax]

/-- Witness for C5 (amended): among `9.5`, `10.0`, `9.8` discovery selects
`10.0` (numeric comparison, where lexicographic order would pick `9.8`). -/
theorem c5_amended_windows_discovery_witness :
    windowsLatestRocmBin "C:/Program Files/AMD/ROCm"
      [⟨"9.5", true⟩, ⟨"10.0", true⟩, ⟨"9.8", true⟩] =
      .ok "C:/Program Files/AMD/ROCm/10.0/bin" := by
  have h := (c5_amended_windows_discovery "C:/Program Files/AMD/ROCm"
    [⟨"9.5", true⟩, ⟨"10.0", true⟩, ⟨"9.8", true⟩]).2.1 "10.0" (by decide)
  exact h.1

/-- C6: the version extractor applies the default pattern
`version\s+([\d.]+)` case-insensitively to the stripped output and returns
the first capture group of the first match (`"17.0.2"` on clang-style
output); whenever the pattern finds no match it returns the sentinel
`"<unknown>"` instead of failing, and a successful subprocess never yields
an error. -/
theorem c6_version_extraction :
    extractVersion searchDefault (pyStrip "clang version 17.0.2 (https://llvm.org)\n") =
      "17.0.2" ∧
    extractVersion searchDefault (pyStrip "  Clang VERSION 17.0.2 extra") = "17.0.2" ∧
    (∀ (search : List Char → Option (List Char)) (output : String),
      search output.toList = none → extractVersion search output = "<unknown>") ∧
    extractVersion searchDefault (pyStrip "no numeric token here") = "<unknown>" ∧
    (∀ (cs g : List Char), searchDefault cs = some g → g ≠ [] ∧ g.all isVerChar = true) ∧
    (∀ (raw executable flag : String) (search : List Char → Option (List Char)),
      getVersion (.ok raw) executable flag search =
        .ok (extractVersion search (pyStrip raw))) := by
  refine ⟨by decide, by decide, ?_, by decide, searchDefault_sound, ?_⟩
  · intro search output h
    have h2 : search output.data = none := h
    simp [extractVersion, h2]
  · intro raw executable flag search
    rfl

/-- Witness for C6: a search function that never matches produces the
sentinel. -/
theorem c6_version_extraction_witness :
    extractVersion (fun _ => none) "clang without numbers" = "<unknown>" := by
  exact c6_version_extraction.2.2.1 (fun _ => none) "clang without numbers" rfl

/-- C7: when the subprocess oracle fails, `getVersion` raises exactly one
wrapping `RuntimeError` naming the quoted executable and flag, and every
error it can return is of that wrapped form — no low-level failure escapes
uninterpreted. -/
theorem c7_version_error_wrapping :
    (∀ (e executable flag : String) (search : List Char → Option (List Char)),
      getVersion (.error e) executable flag search =
        .error (.runtimeError ("Failed to get version when calling \"" ++ executable ++
          "\" \"" ++ flag ++ "\": " ++ e))) ∧
    (∀ (subproc : Except String String) (executable flag : String)
      (search : List Char → Option (List Char)) (err : PyError),
      getVersion subproc executable flag search = .error err →
      ∃ e, subproc = .error e ∧
        err = .runtimeError ("Failed to get version when calling \"" ++ executable ++
          "\" \"" ++ flag ++ "\": " ++ e)) := by
  constructor
  · intro e executable flag search
    rfl
  · intro subproc executable flag search err h
    cases subproc with
    | ok raw => simp [getVersion] at h
    | error e =>
      refine ⟨e, rfl, ?_⟩
      have h2 : (Except.error (PyError.runtimeError
          ("Failed to get version when calling \"" ++ executable ++
            "\" \"" ++ flag ++ "\": " ++ e)) : Except PyError String) = .error err := h
      simpa using h2.symm

/-- Witness for C7: a concrete failing invocation is wrapped into the
`RuntimeError` naming the attempted command line. -/
theorem c7_version_error_wrapping_witness :
    ∃ e, (Except.error "boom" : Except String String) = .error e ∧
      (PyError.runtimeError "Failed to get version when calling \"clang\" \"--version\": boom") =
        .runtimeError ("Failed to get version when calling \"clang\" \"--version\": " ++ e) := by
  exact c7_version_error_wrapping.2 (Except.error "boom") "clang" "--version" searchDefault
    (PyError.runtimeError "Failed to get version when calling \"clang\" \"--version\": boom") rfl

/-- C8: an empty input sequence makes `validateToolchain` fail with the
caller-misuse `ValueError`, for every OS family, filesystem, vendor
directory pair and environment — so before any classification or filesystem
access — and that error is not the not-found error class. -/
theorem c8_empty_input (os : OSName) (fs : String → Bool) (v1 v2 envPATH : String) :
    validateToolchain os fs v1 v2 envPATH [] =
      .error (.valueError
        "No toolchain components to validate, at least one argument is required") ∧
    PyError.isFileNotFound (PyError.valueError
      "No toolchain components to validate, at least one argument is required") = false := by
  exact ⟨rfl, rfl⟩

/-- C9 counterexample: on Windows the device-info default is `hipconfig`,
which carries no `.exe` extension (indeed no extension at all), so not every
Windows default component name carries an executable extension. -/
theorem c9_counterexample :
    ToolchainDefaults.HIP_CONFIG OSName.nt = "hipconfig" ∧
    (".exe".toList.isSuffixOf (ToolchainDefaults.HIP_CONFIG OSName.nt).toList) = false ∧
    ((ToolchainDefaults.HIP_CONFIG OSName.nt).toList.contains '.') = false := by
  refine ⟨rfl, by decide, by decide⟩

/-- C9 (amended): on the Windows family the C compiler, C++ compiler and
offload bundler defaults carry the `.exe` extension and the compiler drivers
differ from the POSIX ones, while the device-info tool default is `hipconfig`
with no extension, identical to POSIX. -/
theorem c9_amended_windows_defaults :
    (".exe".toList.isSuffixOf (ToolchainDefaults.CXX_COMPILER OSName.nt).toList) = true ∧
    (".exe".toList.isSuffixOf (ToolchainDefaults.C_COMPILER OSName.nt).toList) = true ∧
    (".exe".toList.isSuffixOf (ToolchainDefaults.OFFLOAD_BUNDLER OSName.nt).toList) = true ∧
    ToolchainDefaults.HIP_CONFIG OSName.nt = ToolchainDefaults.HIP_CONFIG OSName.posix ∧
    (ToolchainDefaults.CXX_COMPILER OSName.nt ==
      ToolchainDefaults.CXX_COMPILER OSName.posix) = false ∧
    (ToolchainDefaults.C_COMPILER OSName.nt ==
      ToolchainDefaults.C_COMPILER OSName.posix) = false := by
  refine ⟨by decide, by decide, by decide, rfl, by decide, by decide⟩

/-- C10: resolving the single empty-string name fails with the
unsupported-component error (the empty string and its empty base filename
match no canonical name), which differs from the empty-input message and is
not the not-found error class — for every filesystem and environment. -/
theorem c10_empty_string_unsupported (os : OSName) (fs : String → Bool)
    (v1 v2 envPATH : String) :
    validateToolchain os fs v1 v2 envPATH [""] =
      .error (.valueError (" is not a supported toolchain component for OS: " ++
        osNameStr os)) ∧
    ((" is not a supported toolchain component for OS: " ++ osNameStr os) ==
      "No toolchain components to validate, at least one argument is required") = false ∧
    PyError.isFileNotFound (PyError.valueError
      (" is not a supported toolchain component for OS: " ++ osNameStr os)) = false := by
  have hsup : supportedToolchainComponent os "" = false := by
    cases os <;> decide
  have h2 := validateExecutable_unsupported os fs ""
    ([v1, v2] ++ splitStr envPATH (pathSepChar os)) hsup
  refine ⟨?_, ?_, rfl⟩
  · exact validateToolchain_one_err os fs v1 v2 envPATH "" _ (by rw [h2]; rfl)
  · cases os <;> decide
